import Mathlib

/-!
Verification development for the run-orchestration core of the
PIP-Team-3/pip-final-project repository.

Shallow embedding of:
- `src/api/app/schemas/events.py` (event envelope, validated payloads),
- `src/api/app/runs/manager.py` (`RunStreamManager`: in-memory event bus),
- `src/api/app/run/runner_local.py` (`_enforce_cpu_only`,
  `_setup_deterministic_seeds`, `_truncate_if_needed`, `_execute_sync`,
  `execute_notebook`),
- `src/api/app/routers/runs.py` (`_run_plan` orchestrator, with its
  persistence and event-bus side effects modelled as an ordered action trace).
-/

namespace P2N

/--
Validated run event, mirroring `src/api/app/schemas/events.py`.
The pydantic validators keep only the declared fields (extra keys are
dropped, e.g. the `seed` key emitted with the `seed_check` stage update).
`metric_update`, `sample_pred` and unrecognized kinds are carried opaquely
as `other` — no claim inspects their payload fields (and `metric_update`
holds a float, which a shallow embedding does not model).
-/
inductive Event where
  | stage_update (stage : String) (run_id : Option String)
  | progress (percent : Nat) (message : Option String)
  | log_line (message : String)
  | error (message : String) (code : Option String)
  | other (kind : String) (payload : String)
deriving DecidableEq

/-- Association-list lookup keyed by run id (models Python `dict.get`). -/
def alookup {α : Type} : List (String × α) → String → Option α
  | [], _ => none
  | (k, v) :: rest, key => if k = key then some v else alookup rest key

/-- Update the value under `key`, or append `(key, v)` if absent. -/
def aset {α : Type} : List (String × α) → String → α → List (String × α)
  | [], key, v => [(key, v)]
  | (k, w) :: rest, key, v =>
      if k = key then (k, v) :: rest else (k, w) :: aset rest key v

/-- Remove `key` (models Python `dict.pop(key, None)`). -/
def aremove {α : Type} : List (String × α) → String → List (String × α)
  | [], _ => []
  | (k, w) :: rest, key =>
      if k = key then rest else (k, w) :: aremove rest key

namespace RunStreamManager

/--
State of `RunStreamManager` (`src/api/app/runs/manager.py`): `_queues` holds
the pending live events of each registered channel, `_history` the full
append-only replay buffer.  When `close` pops a queue it also enqueues a
`None` sentinel into the popped queue object for consumers already attached
to it; a consumer attaching afterwards looks the queue up in `_queues` and
finds nothing, so the sentinel is unobservable at the state level and the
state model drops it.
-/
structure BusState where
  queues : List (String × List Event)
  history : List (String × List Event)
deriving DecidableEq

/-- The empty broker (a freshly constructed `RunStreamManager`). -/
def emptyBus : BusState := ⟨[], []⟩

/-- `register(run_id)`: idempotently ensure a queue and a history buffer. -/
def register (st : BusState) (rid : String) : BusState :=
  { queues :=
      match alookup st.queues rid with
      | some _ => st.queues
      | none => aset st.queues rid []
    history :=
      match alookup st.history rid with
      | some _ => st.history
      | none => aset st.history rid [] }

/-- `publish(run_id, event, payload)`: always append to history
(`setdefault` creates the buffer), enqueue only if a queue exists. -/
def publish (st : BusState) (rid : String) (ev : Event) : BusState :=
  { queues :=
      match alookup st.queues rid with
      | some q => aset st.queues rid (q ++ [ev])
      | none => st.queues
    history :=
      match alookup st.history rid with
      | some h => aset st.history rid (h ++ [ev])
      | none => aset st.history rid [ev] }

/-- `close(run_id)`: pop the queue; a no-op when the id is unknown or
already closed. -/
def close (st : BusState) (rid : String) : BusState :=
  { st with queues := aremove st.queues rid }

/-- History replayed by `stream(run_id)` before it consults the queue. -/
def streamHistory (st : BusState) (rid : String) : List Event :=
  (alookup st.history rid).getD []

/--
Whether `stream(run_id)` terminates right after replaying history, assuming
no further `publish`/`close` activity on the id (the situation of a
subscriber attaching after the run already closed its channel): the
generator returns iff `_queues.get(run_id)` is `None`; otherwise it blocks
in `await queue.get()`.
-/
def streamTerminates (st : BusState) (rid : String) : Bool :=
  (alookup st.queues rid).isNone

/-- The `GET /api/v1/runs/{run_id}/events` endpoint
(`stream_run_events` in `src/api/app/routers/runs.py`) calls
`register(run_id)` before handing the state to `stream`. -/
def endpointAttach (st : BusState) (rid : String) : BusState :=
  register st rid

end RunStreamManager

/-! ## Execution sandbox (`src/api/app/run/runner_local.py`) -/

/-- `MAX_LOGS_SIZE = 2 * 1024 * 1024` (bytes). -/
def MAX_LOGS_SIZE : Nat := 2 * 1024 * 1024

/-- `MAX_EVENTS_SIZE = 5 * 1024 * 1024` (bytes). -/
def MAX_EVENTS_SIZE : Nat := 5 * 1024 * 1024

/-- `TRUNCATION_MARKER = "\n__TRUNCATED__\n"`. -/
def TRUNCATION_MARKER : String := "\n__TRUNCATED__\n"

/-- UTF-8 byte length of a string: `len(text.encode("utf-8"))`. -/
def utf8Len (s : String) : Nat := (s.data.map Char.utf8Size).sum

/--
`bytes(text, "utf-8")[:n].decode("utf-8", errors="ignore")` for a string
`text`: keep the longest character-aligned chunk that fits in `n` bytes.
A character cut by the byte boundary leaves invalid trailing bytes which
the lenient decode drops.
-/
def takeBytes : Nat → List Char → List Char
  | _, [] => []
  | n, c :: cs => if c.utf8Size ≤ n then c :: takeBytes (n - c.utf8Size) cs else []

/--
`_truncate_if_needed(text, max_size, label, emit)`: returns the stored text
together with the `log_line` events emitted through `emit`.
-/
def truncateIfNeeded (text : String) (maxSize : Nat) (label : String) :
    String × List Event :=
  if utf8Len text ≤ maxSize then (text, [])
  else
    (String.mk (takeBytes (maxSize - utf8Len TRUNCATION_MARKER) text.data)
       ++ TRUNCATION_MARKER,
     [Event.log_line
        ("Warning: " ++ label ++ " exceeded " ++ toString maxSize
          ++ " bytes and was truncated")])

/--
Randomness state of one Python process: `random` is the `random` module's
generator, `numpy`/`torch` are the numeric-library generators, `none`
meaning the library is not importable (`except ImportError: pass`).
-/
structure PrngState where
  random : Nat
  numpy : Option Nat
  torch : Option Nat
deriving DecidableEq

/--
`_setup_deterministic_seeds(seed, emit)` state effect on the process it
runs in (the API/runner process): `random.seed(seed)` always,
`np.random.seed(seed)` / `torch.manual_seed(seed)` when the library is
importable.  An absent library's (nonexistent) state passes through.
-/
def applySeeds (st : PrngState) (seed : Nat) : PrngState :=
  { random := seed
    numpy := st.numpy.map fun _ => seed
    torch := st.torch.map fun _ => seed }

/-- Events emitted by `_setup_deterministic_seeds` (the payload validator
drops the extra `seed` key of the `seed_check` stage update). -/
def seedEvents (st : PrngState) (seed : Nat) : List Event :=
  [Event.stage_update "seed_check" none]
    ++ (if st.numpy.isSome then
          [Event.log_line ("numpy seed set: " ++ toString seed)] else [])
    ++ (if st.torch.isSome then
          [Event.log_line ("torch seed set: " ++ toString seed)] else [])

/--
Host environment of one `_execute_sync` call: the `CUDA_VISIBLE_DEVICES`
variable (`""` when unset), whether `torch.cuda.is_available()`, the
interpreter version string, the randomness state of the runner (API)
process itself — the one `_setup_deterministic_seeds` mutates — and the
randomness state of the fresh Jupyter kernel subprocess
(`NotebookClient(..., kernel_name="python3")`) in which the cells actually
execute.  The kernel's generators are initialized from OS entropy when the
kernel starts, so independent executions get independent `kernel` states;
nothing in `runner_local.py` transmits the runner's seeded state to it.
-/
structure Env where
  cudaVisibleDevices : String
  torchCudaAvailable : Bool
  pythonVersion : String
  prng : PrngState
  kernel : PrngState
deriving DecidableEq

/-- The `GPURequestedError` message of `_enforce_cpu_only`. -/
def gpuMsg (env : Env) : String :=
  "GPU requested via CUDA_VISIBLE_DEVICES=" ++ env.cudaVisibleDevices
    ++ ", but CPU-only mode is enforced"

/-- `_enforce_cpu_only` raises `GPURequestedError` iff
`CUDA_VISIBLE_DEVICES` is set and not `"-1"`; returns the error message. -/
def gpuCheck (env : Env) : Option String :=
  if env.cudaVisibleDevices ≠ "" ∧ env.cudaVisibleDevices ≠ "-1" then
    some (gpuMsg env)
  else none

/-- Events emitted by `_enforce_cpu_only` when it does not raise. -/
def cpuOnlyEvents (env : Env) : List Event :=
  (if env.prng.torch.isSome ∧ env.torchCudaAvailable then
     [Event.log_line "Warning: GPU detected but CPU-only mode enforced"] else [])
    ++ [Event.log_line
         ("Environment: Python " ++ env.pythonVersion ++ ", CPU-only mode")]

/--
One notebook cell as observed by the execution loop of `_execute_sync`:
how long `client.execute_cell` takes (seconds), whether it raises
`CellExecutionError` (with the error text `str(exc)`), the non-blank lines
`_stream_lines` extracts from its outputs, and the (validated) structured
events `_flush_notebook_events` finds newly appended to `events.jsonl`
after the cell.
-/
structure Cell where
  duration : Nat
  raises : Option String
  outputLines : List String
  eventsWritten : List Event
deriving DecidableEq

/--
Behavior of a parsed notebook once the randomness state is fixed: the cell
sequence, the content written to `metrics.json` (if written), the final raw
text of `events.jsonl`, and the non-blank lines of `logs.txt` (if written).
-/
structure Behavior where
  cells : List Cell
  metricsFile : Option String
  eventsFileText : String
  logsFileLines : List String
deriving DecidableEq

/--
A notebook: `nbformat.reads` of the notebook bytes, abstracted as a
function from the kernel process's randomness state in force when the
cells start executing to the observable behavior.  Identical notebook
bytes give identical functions; a notebook whose code consults no
generator (or reseeds every generator itself before using one) is a
constant function.
-/
def Notebook : Type := PrngState → Behavior

/-- How the notebook cell loop stops. -/
inductive CellFailure where
  | timeout
  | execError (msg : String)
deriving DecidableEq

/--
The cell loop of `_execute_sync` (lines 182-202), run over the cells from
1-based index `idx` with `total = max(len(nb.cells), 1)`.  Per cell:
emit `progress(int((index-1)/total*100))`; `client.execute_cell` — a cell
exceeding the per-cell `timeout` raises `CellTimeoutError` which the
`except CellExecutionError` clause does not catch, so it propagates with
nothing further emitted; on `CellExecutionError`, emit the cell's printed
lines as `log_line`s, flush its pending events, and stop with the error
text; otherwise emit the lines, flush, emit `progress(int(index/total*100))`
and continue.  Returns (events emitted, log lines collected, number of
cells on which `execute_cell` was invoked, how the loop stopped).
Float-to-int progress truncation is modelled as Nat division.
-/
def runCells (T total : Nat) : List Cell → Nat →
    List Event × List String × Nat × Option CellFailure
  | [], _ => ([], [], 0, none)
  | c :: rest, idx =>
    let pre : List Event := [Event.progress ((idx - 1) * 100 / total) none]
    if T < c.duration then
      (pre, [], 1, some CellFailure.timeout)
    else
      match c.raises with
      | some msg =>
          (pre ++ c.outputLines.map Event.log_line ++ c.eventsWritten,
           c.outputLines, 1, some (CellFailure.execError msg))
      | none =>
          let rc := runCells T total rest (idx + 1)
          (pre ++ c.outputLines.map Event.log_line ++ c.eventsWritten
             ++ [Event.progress (idx * 100 / total) none] ++ rc.1,
           c.outputLines ++ rc.2.1, rc.2.2.1 + 1, rc.2.2.2)

/-- The three artifacts returned by a successful execution
(`NotebookRunResult`). -/
structure NotebookRunResult where
  metrics_text : String
  events_text : String
  logs_text : String
deriving DecidableEq

/-- How `_execute_sync` finishes: normally, or by raising
`CellTimeoutError` (propagated through the per-cell timeout),
`NotebookExecutionError`, or `GPURequestedError`. -/
inductive ExecOutcome where
  | ok (r : NotebookRunResult)
  | cellTimeout
  | execError (msg : String)
  | gpuError (msg : String)
deriving DecidableEq

/-- Result of one `_execute_sync` call: the outcome, everything emitted
through `emit`, and how many cells `execute_cell` was invoked on. -/
structure SyncResult where
  outcome : ExecOutcome
  events : List Event
  attempted : Nat
deriving DecidableEq

/-- `"\n".join(lines)` followed by the trailing-newline fixup of
`_execute_sync` (lines 219-221): appended only when the join is truthy. -/
def joinLogs (lines : List String) : String :=
  let j := String.intercalate "\n" lines
  if j = "" then j else j ++ "\n"

/--
`_execute_sync(notebook_bytes, emit, timeout_seconds, seed)`:
`_enforce_cpu_only` first (raising before anything is emitted when GPU is
requested), then `_setup_deterministic_seeds` — which seeds the runner
process's own generators and emits its events, but never reaches the
separate kernel subprocess, so the cell behavior is a function of
`env.kernel`, not of the seeded `env.prng` — then the cell loop; after
the loop, `metrics.json` must exist or a `NotebookExecutionError` is
raised; the final `events.jsonl` flush finds nothing new (every cell's
events were flushed in the loop); `logs.txt` lines are appended to the
collected logs; finally the size caps are applied to the logs and events
texts (never to metrics).
-/
def executeSync (env : Env) (nb : Notebook) (T : Nat) (seed : Nat) :
    SyncResult :=
  match gpuCheck env with
  | some msg => ⟨ExecOutcome.gpuError msg, [], 0⟩
  | none =>
    let pre := cpuOnlyEvents env ++ seedEvents env.prng seed
    let beh := nb env.kernel
    let rc := runCells T (max beh.cells.length 1) beh.cells 1
    match rc.2.2.2 with
    | some CellFailure.timeout =>
        ⟨ExecOutcome.cellTimeout, pre ++ rc.1, rc.2.2.1⟩
    | some (CellFailure.execError m) =>
        ⟨ExecOutcome.execError m, pre ++ rc.1, rc.2.2.1⟩
    | none =>
      match beh.metricsFile with
      | none =>
          ⟨ExecOutcome.execError "metrics.json not produced by notebook",
           pre ++ rc.1, rc.2.2.1⟩
      | some mtext =>
          let logsText := joinLogs (rc.2.1 ++ beh.logsFileLines)
          ⟨ExecOutcome.ok
             ⟨mtext,
              (truncateIfNeeded beh.eventsFileText MAX_EVENTS_SIZE "events.jsonl").1,
              (truncateIfNeeded logsText MAX_LOGS_SIZE "logs.txt").1⟩,
           pre ++ rc.1
             ++ (truncateIfNeeded logsText MAX_LOGS_SIZE "logs.txt").2
             ++ (truncateIfNeeded beh.eventsFileText MAX_EVENTS_SIZE "events.jsonl").2,
           rc.2.2.1⟩

/--
`execute_notebook(notebook_bytes, emit, timeout_minutes, seed)`: clamps the
minutes to `max(1, min(timeout_minutes, 25))`, converts to seconds, and
runs `_execute_sync` in a worker thread.  There is no `asyncio.wait_for`
around the call: `T` is the per-cell timeout handed to `NotebookClient`.
-/
def executeNotebook (env : Env) (nb : Notebook) (timeoutMinutes : Nat)
    (seed : Nat) : SyncResult :=
  executeSync env nb (max 1 (min timeoutMinutes 25) * 60) seed

/-! ## Run orchestrator (`_run_plan` in `src/api/app/routers/runs.py`) -/

/-- `PlanPolicy` of `src/api/app/schemas/plan_v1_1.py` (the orchestrator
reads only `budget_minutes`). -/
structure PlanPolicy where
  budget_minutes : Nat
deriving DecidableEq

/-- `PlanConfig` (the orchestrator reads only `seed`). -/
structure PlanConfig where
  seed : Nat
deriving DecidableEq

/-- A successfully validated `PlanDocumentV11`, restricted to the fields
`_run_plan` reads.  The schema declares `policy` and `config` required, but
`_run_plan` guards for their absence, so the model keeps them optional. -/
structure PlanDoc where
  policy : Option PlanPolicy
  config : Option PlanConfig
deriving DecidableEq

/-- `DEFAULT_TIMEOUT_MINUTES = 25`. -/
def DEFAULT_TIMEOUT_MINUTES : Nat := 25

/-- Lines 110-111: `timeout_minutes = plan.policy.budget_minutes if
plan.policy else DEFAULT; timeout_minutes = min(timeout_minutes or
DEFAULT, DEFAULT)` — a falsy (zero) value falls back to the default. -/
def timeoutMinutesOf (doc : PlanDoc) : Nat :=
  let t := match doc.policy with
    | some p => p.budget_minutes
    | none => DEFAULT_TIMEOUT_MINUTES
  min (if t = 0 then DEFAULT_TIMEOUT_MINUTES else t) DEFAULT_TIMEOUT_MINUTES

/-- Lines 114-116: `seed = 42; if plan.config …: seed = plan.config.seed
or 42` — a zero seed is falsy and falls back to 42. -/
def seedOf (doc : PlanDoc) : Nat :=
  match doc.config with
  | some c => if c.seed = 0 then 42 else c.seed
  | none => 42

/--
One side-effecting step of `_run_plan`, in program order: an event
published to the event bus, a run-event row insert, a run-status update,
a blob-storage text write, the initial bus registration, or the final bus
close.  `_emit` performs a publish immediately followed by an insert.
-/
inductive Action where
  | registerBus
  | publishEv (ev : Event)
  | dbInsertEvent (ev : Event)
  | dbUpdate (status : String)
  | storeText (key : String) (content : String)
  | closeBus
deriving DecidableEq

/-- The `_emit` helper: validate (already reflected in `Event`), publish to
the bus, insert a durable run-event row. -/
def emitA (ev : Event) : List Action :=
  [Action.publishEv ev, Action.dbInsertEvent ev]

/-- Messages captured by `_emit` into `captured_logs`: every `log_line`
emitted so far. -/
def capturedLogs (evs : List Event) : List String :=
  evs.filterMap fun e =>
    match e with
    | Event.log_line m => some m
    | _ => none

/-- `"\n".join(captured_logs) + ("\n" if captured_logs else "")`. -/
def partialLogsText (evs : List Event) : String :=
  String.intercalate "\n" (capturedLogs evs)
    ++ (if capturedLogs evs = [] then "" else "\n")

/--
What the awaited `execute_notebook` call looks like from `_run_plan`: the
events it pushed through `_emit` before finishing, and either the artifact
result or one of the exceptions the handlers at lines 157-218 distinguish.
`timeout` is `asyncio.TimeoutError` (on current Python the propagated
`nbclient` `CellTimeoutError` is a subclass); `unexpected` is the final
`except Exception` clause, which also covers a failing notebook download or
a failure while persisting artifacts.
-/
inductive SandboxOutcome where
  | ok (r : NotebookRunResult) (emitted : List Event)
  | timeout (emitted : List Event)
  | gpuRequested (msg : String) (emitted : List Event)
  | execError (msg : String) (emitted : List Event)
  | unexpected (emitted : List Event)
deriving DecidableEq

/-- Repackage a sandbox result as the outcome `_run_plan` observes. -/
def toSandboxOutcome (r : SyncResult) : SandboxOutcome :=
  match r.outcome with
  | ExecOutcome.ok res => SandboxOutcome.ok res r.events
  | ExecOutcome.cellTimeout => SandboxOutcome.timeout r.events
  | ExecOutcome.gpuError m => SandboxOutcome.gpuRequested m r.events
  | ExecOutcome.execError m => SandboxOutcome.execError m r.events

/-- The common failure-handler tail (lines 157-218): emit
`stage_update(run_error)`, emit one `error` with the stable code, persist
the `failed` status, store the captured partial logs. -/
def failTail (rid msg code : String) (emitted : List Event) : List Action :=
  emitA (Event.stage_update "run_error" (some rid))
    ++ emitA (Event.error msg (some code))
    ++ [Action.dbUpdate "failed",
        Action.storeText ("runs/" ++ rid ++ "/logs.txt")
          (partialLogsText emitted)]

/-- `_persist_artifacts(storage, run_id, result)`: metrics always, events
only when the text is truthy (nonempty), logs always. -/
def persistArtifacts (rid : String) (r : NotebookRunResult) : List Action :=
  [Action.storeText ("runs/" ++ rid ++ "/metrics.json") r.metrics_text]
    ++ (if r.events_text = "" then []
        else [Action.storeText ("runs/" ++ rid ++ "/events.jsonl") r.events_text])
    ++ [Action.storeText ("runs/" ++ rid ++ "/logs.txt") r.logs_text]

/--
`_run_plan(plan_record, run_id, db, storage)` as the ordered trace of its
side effects.  `plan` is `none` when `PlanDocumentV11.model_validate`
raises (lines 96-108): that branch emits a single `error` event and closes
the channel, with no status update.  Otherwise the run is marked `running`,
`stage_update(run_start)` and `progress(0)` are emitted, the sandbox
outcome is handled, and the `finally` clause closes the bus channel last.
-/
def runPlan (rid : String) (plan : Option PlanDoc)
    (outcome : SandboxOutcome) : List Action :=
  Action.registerBus ::
  match plan with
  | none =>
      emitA (Event.error "Plan document invalid" (some "E_RUN_FAILED"))
        ++ [Action.closeBus]
  | some _ =>
      [Action.dbUpdate "running"]
        ++ emitA (Event.stage_update "run_start" (some rid))
        ++ emitA (Event.progress 0 none)
        ++ (match outcome with
            | SandboxOutcome.ok r emitted =>
                (emitted.map emitA).flatten
                  ++ persistArtifacts rid r
                  ++ [Action.dbUpdate "succeeded"]
                  ++ emitA (Event.stage_update "run_complete" (some rid))
                  ++ emitA (Event.progress 100 none)
            | SandboxOutcome.timeout emitted =>
                (emitted.map emitA).flatten
                  ++ failTail rid "Run exceeded allotted time" "E_RUN_TIMEOUT" emitted
            | SandboxOutcome.gpuRequested m emitted =>
                (emitted.map emitA).flatten
                  ++ failTail rid m "E_GPU_REQUESTED" emitted
            | SandboxOutcome.execError m emitted =>
                (emitted.map emitA).flatten
                  ++ failTail rid m "E_RUN_FAILED" emitted
            | SandboxOutcome.unexpected emitted =>
                (emitted.map emitA).flatten
                  ++ failTail rid "Unexpected run failure" "E_RUN_FAILED" emitted)
        ++ [Action.closeBus]

/-- Full pipeline: `_run_plan` on a validated plan driving
`execute_notebook` on a concrete environment and notebook. -/
def runPlanPipeline (rid : String) (doc : PlanDoc) (env : Env)
    (nb : Notebook) : List Action :=
  runPlan rid (some doc)
    (toSandboxOutcome (executeNotebook env nb (timeoutMinutesOf doc) (seedOf doc)))

/-- Events published to the event bus along a trace, in order. -/
def publishedEvents (tr : List Action) : List Event :=
  tr.filterMap fun a =>
    match a with
    | Action.publishEv e => some e
    | _ => none

/-- Run-status values persisted along a trace, in order. -/
def statusUpdates (tr : List Action) : List String :=
  tr.filterMap fun a =>
    match a with
    | Action.dbUpdate s => some s
    | _ => none

/-- The persisted status after a trace, starting from the status
`start_run` inserted (`pending`). -/
def finalStatus (init : String) (tr : List Action) : String :=
  (statusUpdates tr).getLastD init

/-- Texts written for a given storage key along a trace. -/
def storedTexts (tr : List Action) (key : String) : List String :=
  tr.filterMap fun a =>
    match a with
    | Action.storeText k content => if k = key then some content else none
    | _ => none

/-- Whether an event is a `stage_update` with stage `run_error`. -/
def isRunErrorStage : Event → Bool
  | Event.stage_update s _ => s = "run_error"
  | _ => false

/-- Whether an event is an `error` carrying the stable timeout code. -/
def isTimeoutError : Event → Bool
  | Event.error _ (some c) => c = "E_RUN_TIMEOUT"
  | _ => false

/-- The message, stable error code and sandbox-emitted events of a failing
sandbox outcome (`none` for a successful one), matching the except clauses
of `_run_plan`. -/
def failureInfo : SandboxOutcome → Option (String × String × List Event)
  | SandboxOutcome.ok _ _ => none
  | SandboxOutcome.timeout em => some ("Run exceeded allotted time", "E_RUN_TIMEOUT", em)
  | SandboxOutcome.gpuRequested m em => some (m, "E_GPU_REQUESTED", em)
  | SandboxOutcome.execError m em => some (m, "E_RUN_FAILED", em)
  | SandboxOutcome.unexpected em => some ("Unexpected run failure", "E_RUN_FAILED", em)

/-- Events emitted by the cell loop over a run of cells that all complete
normally, starting at 1-based index `idx`. -/
def normalCellsEvents (total : Nat) : List Cell → Nat → List Event
  | [], _ => []
  | c :: rest, idx =>
      [Event.progress ((idx - 1) * 100 / total) none]
        ++ c.outputLines.map Event.log_line ++ c.eventsWritten
        ++ [Event.progress (idx * 100 / total) none]
        ++ normalCellsEvents total rest (idx + 1)

/-! ### Concrete instances used to exercise the theorems -/

/-- A CPU-only host with no numeric libraries installed. -/
def benignEnv : Env := ⟨"", false, "3.11.9", ⟨0, none, none⟩, ⟨0, none, none⟩⟩

/-- A host whose environment explicitly requests the first GPU. -/
def gpuEnv : Env := ⟨"0", false, "3.11.9", ⟨0, none, none⟩, ⟨0, none, none⟩⟩

/-- Two cells of 50 seconds each: the total (100 s) exceeds a 60-second
budget while each single cell stays under the per-cell timeout. -/
def slowNb : Notebook := fun _ =>
  ⟨[⟨50, none, [], []⟩, ⟨50, none, [], []⟩], some "metrics ok", "", []⟩

/-- One cell that outruns a 60-second per-cell timeout. -/
def hangingNb : Notebook := fun _ => ⟨[⟨61, none, [], []⟩], some "metrics ok", "", []⟩

/-- A notebook that completes all cells but never writes `metrics.json`. -/
def noMetricsNb : Notebook := fun _ => ⟨[⟨1, none, ["hello"], []⟩], none, "", []⟩

/-- A well-behaved single-cell notebook producing metrics. -/
def okNb : Notebook := fun _ =>
  ⟨[⟨1, none, ["line one"], []⟩], some "accuracy 0.9", "", []⟩

/-- A three-cell notebook whose second cell raises. -/
def failingNb : Notebook := fun _ =>
  ⟨[⟨1, none, ["out1"], [Event.other "sample_pred" "p1"]⟩,
    ⟨1, some "CellExecutionError: boom", ["Traceback line"],
      [Event.other "metric_update" "m1"]⟩,
    ⟨1, none, ["never printed"], []⟩], some "metrics ok", "", []⟩

/-- A notebook that draws from the kernel process's general generator
without reseeding it, so its printed output and metrics depend on the
kernel's entropy-initialized state. -/
def kernelSensitiveNb : Notebook := fun p =>
  { cells := [⟨1, none, [toString p.random], []⟩]
    metricsFile := some (toString p.random)
    eventsFileText := ""
    logsFileLines := [] }

/-- A validated plan with a one-minute budget and seed 7. -/
def budgetDoc : PlanDoc := ⟨some ⟨1⟩, some ⟨7⟩⟩

/-- A CPU-only host with numpy present in the runner, one runner generator
state and one kernel generator state. -/
def envA : Env := ⟨"", false, "3.11.9", ⟨0, some 111, none⟩, ⟨3, none, none⟩⟩

/-- The same host configuration with different runner and kernel generator
states (independent executions start from independent entropy). -/
def envB : Env := ⟨"", false, "3.11.9", ⟨77, some 222, none⟩, ⟨4, none, none⟩⟩

/-- Two executions on the same host configuration and identical runner
randomness whose fresh kernel subprocesses boot from different entropy. -/
def envK1 : Env := ⟨"", false, "3.11.9", ⟨0, some 111, none⟩, ⟨5, none, none⟩⟩

/-- Second kernel launch of the pair: only the kernel state differs. -/
def envK2 : Env := ⟨"", false, "3.11.9", ⟨0, some 111, none⟩, ⟨6, none, none⟩⟩

/-! ## Helper lemmas -/

theorem alookup_aset_self {α : Type} (l : List (String × α)) (k : String)
    (v : α) : alookup (aset l k v) k = some v := by
  induction l with
  | nil => simp [aset, alookup]
  | cons p rest ih =>
    obtain ⟨pk, pv⟩ := p
    by_cases h : pk = k <;> simp [aset, alookup, h, ih]

theorem aremove_of_none {α : Type} (l : List (String × α)) (k : String)
    (h : alookup l k = none) : aremove l k = l := by
  induction l with
  | nil => rfl
  | cons p rest ih =>
    obtain ⟨pk, pv⟩ := p
    by_cases hk : pk = k
    · simp [alookup, hk] at h
    · simp [alookup, hk] at h
      simp [aremove, hk, ih h]

namespace RunStreamManager

theorem streamHistory_publish (st : BusState) (rid : String) (ev : Event) :
    streamHistory (publish st rid ev) rid = streamHistory st rid ++ [ev] := by
  unfold streamHistory publish
  cases h : alookup st.history rid <;>
    simp [h, alookup_aset_self]

theorem publish_queues_of_unregistered (st : BusState) (rid : String)
    (ev : Event) (h : alookup st.queues rid = none) :
    (publish st rid ev).queues = st.queues := by
  unfold publish
  simp [h]

theorem close_of_unregistered (st : BusState) (rid : String)
    (h : alookup st.queues rid = none) : close st rid = st := by
  unfold close
  rw [aremove_of_none st.queues rid h]

theorem streamHistory_register (st : BusState) (rid : String) :
    streamHistory (register st rid) rid = streamHistory st rid := by
  unfold streamHistory register
  cases h : alookup st.history rid <;>
    simp [h, alookup_aset_self]

theorem streamTerminates_register (st : BusState) (rid : String)
    (h : alookup st.queues rid = none) :
    streamTerminates (register st rid) rid = false := by
  unfold streamTerminates register
  simp [h, alookup_aset_self]

end RunStreamManager

/-! ## Claim theorems -/

open RunStreamManager

/--
C10: `publish(run_id, kind, payload)` is total (it is a plain function of
the state — the history append uses `setdefault` so the buffer is created
if needed, and the unbounded `asyncio.Queue.put_nowait` cannot raise), it
always appends the event to the history buffer so a later `stream` replays
it, registration matters only for live queue delivery (an unregistered id
leaves the queues untouched), and `close` on an unknown or already-closed
run id is a no-op.
-/
theorem c10_publish_always_buffers (st : BusState) (rid : String) (ev : Event) :
    streamHistory (publish st rid ev) rid = streamHistory st rid ++ [ev]
    ∧ (alookup st.queues rid = none →
        (publish st rid ev).queues = st.queues)
    ∧ (alookup st.queues rid = none → close st rid = st) :=
  ⟨streamHistory_publish st rid ev,
   fun h => publish_queues_of_unregistered st rid ev h,
   fun h => close_of_unregistered st rid h⟩

/-- Witness for C10 at a concrete unregistered run id on the empty bus. -/
theorem c10_publish_always_buffers_witness :
    alookup (emptyBus : BusState).queues "r" = none
    ∧ streamHistory (publish emptyBus "r" (Event.log_line "x")) "r"
        = streamHistory emptyBus "r" ++ [Event.log_line "x"]
    ∧ (publish emptyBus "r" (Event.log_line "x")).queues = emptyBus.queues
    ∧ close emptyBus "r" = emptyBus :=
  ⟨rfl,
   (c10_publish_always_buffers emptyBus "r" (Event.log_line "x")).1,
   (c10_publish_always_buffers emptyBus "r" (Event.log_line "x")).2.1 rfl,
   (c10_publish_always_buffers emptyBus "r" (Event.log_line "x")).2.2 rfl⟩

/--
C7 (counterexample): a run is registered, one event is published, the
channel is closed.  A subscriber attaching afterwards through the
`stream_events` endpoint does receive the full history, but the endpoint's
`register` call re-creates an empty live queue first, so `stream` then
blocks on `queue.get()` — the stream does NOT end, contrary to the claim.
Attaching through `manager.stream` directly (no re-register) would end.
-/
theorem c7_endpoint_counterexample :
    streamHistory
        (endpointAttach
          (close (publish (register emptyBus "r") "r" (Event.progress 0 none)) "r") "r") "r"
      = [Event.progress 0 none]
    ∧ streamTerminates
        (close (publish (register emptyBus "r") "r" (Event.progress 0 none)) "r") "r" = true
    ∧ streamTerminates
        (endpointAttach
          (close (publish (register emptyBus "r") "r" (Event.progress 0 none)) "r") "r") "r"
      = false := by
  decide

/--
C7 (amended): for any state in which the run id has no live queue (closed
channel, or an id never registered), `stream` replays the full history in
order and then terminates, and an unknown id has empty history; but the
`stream_events` endpoint calls `register` before streaming, which
re-creates an empty live channel: the attached subscriber still receives
exactly the stored history, after which the stream waits for further
events instead of ending.
-/
theorem c7_stream_replay_amended (st : BusState) (rid : String)
    (h : alookup st.queues rid = none) :
    streamTerminates st rid = true
    ∧ (alookup st.history rid = none → streamHistory st rid = [])
    ∧ streamHistory (endpointAttach st rid) rid = streamHistory st rid
    ∧ streamTerminates (endpointAttach st rid) rid = false := by
  refine ⟨?_, ?_, streamHistory_register st rid, streamTerminates_register st rid h⟩
  · unfold streamTerminates
    simp [h]
  · intro hh
    unfold streamHistory
    simp [hh]

/-- Witness for C7 (amended) on a closed channel holding one event. -/
theorem c7_stream_replay_amended_witness :
    alookup
        (close (publish (register emptyBus "r") "r" (Event.progress 0 none)) "r").queues "r"
      = none
    ∧ streamTerminates
        (close (publish (register emptyBus "r") "r" (Event.progress 0 none)) "r") "r" = true
    ∧ streamTerminates
        (endpointAttach
          (close (publish (register emptyBus "r") "r" (Event.progress 0 none)) "r") "r") "r"
      = false :=
  ⟨by decide,
   (c7_stream_replay_amended
      (close (publish (register emptyBus "r") "r" (Event.progress 0 none)) "r") "r"
      (by decide)).1,
   (c7_stream_replay_amended
      (close (publish (register emptyBus "r") "r" (Event.progress 0 none)) "r") "r"
      (by decide)).2.2.2⟩

/--
C3 (code bug evidence): when the plan document fails to validate,
`_run_plan` emits an error event and closes the channel but never issues a
status update: the persisted run status stays `pending` (the status
`start_run` inserted) instead of transitioning to `failed`, and the run
indeed never enters `running`.
-/
theorem c3_plan_invalid_stays_pending (rid : String) (o : SandboxOutcome) :
    statusUpdates (runPlan rid none o) = []
    ∧ finalStatus "pending" (runPlan rid none o) = "pending"
    ∧ publishedEvents (runPlan rid none o)
        = [Event.error "Plan document invalid" (some "E_RUN_FAILED")] := by
  refine ⟨rfl, rfl, rfl⟩

theorem takeBytes_utf8_le (n : Nat) (l : List Char) :
    ((takeBytes n l).map Char.utf8Size).sum ≤ n := by
  induction l generalizing n with
  | nil => simp [takeBytes]
  | cons c cs ih =>
    by_cases h : c.utf8Size ≤ n
    · simp only [takeBytes, if_pos h, List.map_cons, List.sum_cons]
      calc c.utf8Size + ((takeBytes (n - c.utf8Size) cs).map Char.utf8Size).sum
          ≤ c.utf8Size + (n - c.utf8Size) :=
            Nat.add_le_add_left (ih (n - c.utf8Size)) _
        _ = n := Nat.add_sub_cancel' h
    · simp [takeBytes, if_neg h]

theorem utf8Len_append (s t : String) :
    utf8Len (s ++ t) = utf8Len s + utf8Len t := by
  unfold utf8Len
  rw [String.data_append, List.map_append, List.sum_append]

theorem executeSync_ok_metricsFile (env : Env) (nb : Notebook) (T s : Nat)
    (r : NotebookRunResult) (evs : List Event) (att : Nat)
    (h : executeSync env nb T s = ⟨ExecOutcome.ok r, evs, att⟩) :
    (nb env.kernel).metricsFile = some r.metrics_text := by
  unfold executeSync at h
  cases hg : gpuCheck env with
  | some m => rw [hg] at h; simp at h
  | none =>
    rw [hg] at h
    simp only at h
    cases hfl : (runCells T (max (nb env.kernel).cells.length 1)
        (nb env.kernel).cells 1).2.2.2 with
    | some f =>
      rw [hfl] at h
      cases f <;> simp at h
    | none =>
      rw [hfl] at h
      cases hmf : (nb env.kernel).metricsFile with
      | none => rw [hmf] at h; simp at h
      | some mtext =>
        rw [hmf] at h
        simp only [SyncResult.mk.injEq] at h
        obtain ⟨ho, -, -⟩ := h
        cases ho
        rfl

/--
C6 (counterexample): with cap 16 bytes and a content of twenty two-byte
characters (40 bytes), `_truncate_if_needed` keeps `16 − 15 = 1` byte,
which cuts the first character in half; the lenient decode drops the
half character, so the stored artifact is `15` bytes — the marker alone —
not "exactly cap bytes" as the claim states.
-/
theorem c6_truncation_counterexample :
    16 < utf8Len (String.mk (List.replicate 20 'é'))
    ∧ utf8Len (truncateIfNeeded (String.mk (List.replicate 20 'é')) 16 "logs.txt").1 = 15
    ∧ (truncateIfNeeded (String.mk (List.replicate 20 'é')) 16 "logs.txt").1
        = TRUNCATION_MARKER := by
  decide

/--
C6 (amended): content whose UTF-8 length is within the cap is stored
unchanged with no warning; content over the cap is truncated to at most
`cap` bytes — exactly `cap` only when the byte boundary falls between
characters, since the lenient decode at the boundary can drop the bytes of
a cut character — always ending with the fixed truncation marker, with one
`log_line` warning naming the artifact and the ceiling; and the `metrics`
artifact is never truncated (a successful execution returns the
`metrics.json` content verbatim).
-/
theorem c6_truncation_amended (text : String) (maxSize : Nat) (label : String)
    (hm : utf8Len TRUNCATION_MARKER ≤ maxSize) :
    (utf8Len text ≤ maxSize → truncateIfNeeded text maxSize label = (text, []))
    ∧ (maxSize < utf8Len text →
        utf8Len (truncateIfNeeded text maxSize label).1 ≤ maxSize
        ∧ (∃ p, (truncateIfNeeded text maxSize label).1.data
            = p ++ TRUNCATION_MARKER.data)
        ∧ (truncateIfNeeded text maxSize label).2
            = [Event.log_line ("Warning: " ++ label ++ " exceeded "
                ++ toString maxSize ++ " bytes and was truncated")])
    ∧ (∀ env nb T s r evs att,
        executeSync env nb T s = ⟨ExecOutcome.ok r, evs, att⟩ →
        (nb env.kernel).metricsFile = some r.metrics_text) := by
  refine ⟨?_, ?_, fun env nb T s r evs att h =>
    executeSync_ok_metricsFile env nb T s r evs att h⟩
  · intro hle
    unfold truncateIfNeeded
    simp [hle]
  · intro hgt
    have hnle : ¬ utf8Len text ≤ maxSize := by omega
    refine ⟨?_, ?_, ?_⟩
    · unfold truncateIfNeeded
      simp only [if_neg hnle]
      rw [utf8Len_append]
      have h1 : utf8Len (String.mk (takeBytes (maxSize - utf8Len TRUNCATION_MARKER) text.data))
          ≤ maxSize - utf8Len TRUNCATION_MARKER :=
        takeBytes_utf8_le _ _
      omega
    · unfold truncateIfNeeded
      simp only [if_neg hnle]
      exact ⟨takeBytes (maxSize - utf8Len TRUNCATION_MARKER) text.data,
        String.data_append _ _⟩
    · unfold truncateIfNeeded
      simp [hnle]

theorem runCells_normal (T total : Nat) (cells : List Cell) (idx : Nat)
    (h : ∀ c ∈ cells, c.raises = none ∧ c.duration ≤ T) :
    runCells T total cells idx
      = (normalCellsEvents total cells idx,
         (cells.map Cell.outputLines).flatten, cells.length, none) := by
  induction cells generalizing idx with
  | nil => rfl
  | cons c rest ih =>
    obtain ⟨hr, hd⟩ := h c (List.mem_cons_self c rest)
    have hrest : ∀ x ∈ rest, x.raises = none ∧ x.duration ≤ T :=
      fun x hx => h x (List.mem_cons_of_mem c hx)
    have hT : ¬ T < c.duration := by omega
    unfold runCells
    rw [if_neg hT, hr, ih (idx + 1) hrest]
    simp [normalCellsEvents]

theorem runCells_stops_at_error (T total : Nat) (bf : List Cell) (c : Cell)
    (rest : List Cell) (idx : Nat) (m : String)
    (hbf : ∀ x ∈ bf, x.raises = none ∧ x.duration ≤ T)
    (hc : c.raises = some m) (hd : c.duration ≤ T) :
    runCells T total (bf ++ c :: rest) idx
      = (normalCellsEvents total bf idx
           ++ [Event.progress ((idx + bf.length - 1) * 100 / total) none]
           ++ c.outputLines.map Event.log_line ++ c.eventsWritten,
         (bf.map Cell.outputLines).flatten ++ c.outputLines,
         bf.length + 1, some (CellFailure.execError m)) := by
  induction bf generalizing idx with
  | nil =>
    have hT : ¬ T < c.duration := by omega
    rw [List.nil_append]
    simp only [runCells, if_neg hT, hc]
    simp [normalCellsEvents]
  | cons b bs ih =>
    obtain ⟨hr, hbd⟩ := hbf b (List.mem_cons_self b bs)
    have hbs : ∀ x ∈ bs, x.raises = none ∧ x.duration ≤ T :=
      fun x hx => hbf x (List.mem_cons_of_mem b hx)
    have hT : ¬ T < b.duration := by omega
    have hidx : idx + 1 + bs.length - 1 = idx + (bs.length + 1) - 1 := by omega
    rw [List.cons_append]
    simp only [runCells, if_neg hT, hr, ih (idx + 1) hbs]
    simp [normalCellsEvents, hidx]

theorem runCells_stops_at_timeout (T total : Nat) (bf : List Cell) (c : Cell)
    (rest : List Cell) (idx : Nat)
    (hbf : ∀ x ∈ bf, x.raises = none ∧ x.duration ≤ T)
    (hc : T < c.duration) :
    runCells T total (bf ++ c :: rest) idx
      = (normalCellsEvents total bf idx
           ++ [Event.progress ((idx + bf.length - 1) * 100 / total) none],
         (bf.map Cell.outputLines).flatten,
         bf.length + 1, some CellFailure.timeout) := by
  induction bf generalizing idx with
  | nil =>
    rw [List.nil_append]
    simp only [runCells, if_pos hc]
    simp [normalCellsEvents]
  | cons b bs ih =>
    obtain ⟨hr, hbd⟩ := hbf b (List.mem_cons_self b bs)
    have hbs : ∀ x ∈ bs, x.raises = none ∧ x.duration ≤ T :=
      fun x hx => hbf x (List.mem_cons_of_mem b hx)
    have hT : ¬ T < b.duration := by omega
    have hidx : idx + 1 + bs.length - 1 = idx + (bs.length + 1) - 1 := by omega
    rw [List.cons_append]
    simp only [runCells, if_neg hT, hr, ih (idx + 1) hbs]
    simp [normalCellsEvents, hidx]

/--
C8: if every cell completes (no unit error, none over the per-cell
timeout) but the notebook never wrote `metrics.json`, `_execute_sync`
raises `NotebookExecutionError("metrics.json not produced by notebook")` —
the absence of the metrics artifact is itself an execution error; and
conversely a successful execution always carries the `metrics.json`
content, so exactly the runs with a metrics artifact can succeed.
-/
theorem c8_metrics_artifact_required (env : Env) (nb : Notebook) (T s : Nat)
    (hg : gpuCheck env = none) :
    ((∀ c ∈ (nb env.kernel).cells, c.raises = none ∧ c.duration ≤ T) →
      (nb env.kernel).metricsFile = none →
      (executeSync env nb T s).outcome
        = ExecOutcome.execError "metrics.json not produced by notebook")
    ∧ (∀ r evs att, executeSync env nb T s = ⟨ExecOutcome.ok r, evs, att⟩ →
        (nb env.kernel).metricsFile = some r.metrics_text) := by
  constructor
  · intro hall hmf
    unfold executeSync
    rw [hg]
    simp only
    rw [runCells_normal T (max (nb env.kernel).cells.length 1)
      (nb env.kernel).cells 1 hall]
    simp [hmf]
  · exact fun r evs att h => executeSync_ok_metricsFile env nb T s r evs att h

/-- Witness for C8 at a notebook that completes but writes no metrics, and
at one that does produce metrics. -/
theorem c8_metrics_artifact_required_witness :
    (executeSync benignEnv noMetricsNb 60 42).outcome
        = ExecOutcome.execError "metrics.json not produced by notebook"
    ∧ (okNb benignEnv.kernel).metricsFile = some "accuracy 0.9" :=
  ⟨(c8_metrics_artifact_required benignEnv noMetricsNb 60 42 rfl).1
      (by decide) rfl,
   (c8_metrics_artifact_required benignEnv okNb 60 42 rfl).2
      ⟨"accuracy 0.9", "", "line one\n"⟩
      ([Event.log_line "Environment: Python 3.11.9, CPU-only mode",
        Event.stage_update "seed_check" none,
        Event.progress 0 none, Event.log_line "line one",
        Event.progress 100 none]) 1 (by decide)⟩

/--
C9: units run strictly in sequence; when the first abnormal cell (after a
run of cells that complete normally) raises a `CellExecutionError`, the
sandbox emits that cell's printed output as `log_line` events, flushes the
structured events the cell wrote, and stops with a
`NotebookExecutionError` carrying the original error text: the result
shows `execute_cell` was invoked on exactly the cells up to and including
the failing one, and the emitted trace contains nothing from any later
cell.
-/
theorem c9_sequential_stop_on_error (env : Env) (nb : Notebook) (T s : Nat)
    (m : String) (bf : List Cell) (c : Cell) (rest : List Cell)
    (hg : gpuCheck env = none)
    (hcells : (nb env.kernel).cells = bf ++ c :: rest)
    (hbf : ∀ x ∈ bf, x.raises = none ∧ x.duration ≤ T)
    (hc : c.raises = some m) (hd : c.duration ≤ T) :
    executeSync env nb T s
      = ⟨ExecOutcome.execError m,
         cpuOnlyEvents env ++ seedEvents env.prng s
           ++ (normalCellsEvents (max (bf ++ c :: rest).length 1) bf 1
                ++ [Event.progress
                      (bf.length * 100 / max (bf ++ c :: rest).length 1) none]
                ++ c.outputLines.map Event.log_line ++ c.eventsWritten),
         bf.length + 1⟩ := by
  unfold executeSync
  rw [hg]
  simp only
  rw [hcells, runCells_stops_at_error T (max (bf ++ c :: rest).length 1)
    bf c rest 1 m hbf hc hd]
  simp

/-- Witness for C9: three cells, the second raises; the first cell's
events appear, the failing cell's output and events are flushed, the third
cell never runs (`attempted = 2`). -/
theorem c9_sequential_stop_on_error_witness :
    executeSync benignEnv failingNb 60 42
      = ⟨ExecOutcome.execError "CellExecutionError: boom",
         [Event.log_line "Environment: Python 3.11.9, CPU-only mode",
          Event.stage_update "seed_check" none,
          Event.progress 0 none, Event.log_line "out1",
          Event.other "sample_pred" "p1", Event.progress 33 none,
          Event.progress 33 none, Event.log_line "Traceback line",
          Event.other "metric_update" "m1"],
         2⟩ := by
  have h := c9_sequential_stop_on_error benignEnv failingNb 60 42
    "CellExecutionError: boom"
    [⟨1, none, ["out1"], [Event.other "sample_pred" "p1"]⟩]
    ⟨1, some "CellExecutionError: boom", ["Traceback line"],
      [Event.other "metric_update" "m1"]⟩
    [⟨1, none, ["never printed"], []⟩]
    rfl rfl (by decide) rfl (by decide)
  rw [h]
  decide

/--
C4 (counterexample): the cells execute in a fresh Jupyter kernel
subprocess whose generators `_setup_deterministic_seeds` never touches —
it seeds only the runner process.  Two executions of the same notebook
with the same seed (9), on identical host configurations and with
identical (and identically seeded) runner randomness, whose kernels boot
from different entropy, produce different `metrics` (`"5"` vs `"6"`) for a
notebook that draws from the kernel's unseeded general generator — so the
claimed byte-identical `metrics` for every valid (artifact, seed) pair
fails, and the claimed cause ("every available randomness source is seeded
before any user code runs") does not hold in the process that runs the
user code.
-/
theorem c4_kernel_entropy_counterexample :
    envK1.prng = envK2.prng
    ∧ applySeeds envK1.prng 9 = applySeeds envK2.prng 9
    ∧ envK1.cudaVisibleDevices = envK2.cudaVisibleDevices
    ∧ envK1.kernel ≠ envK2.kernel
    ∧ (executeNotebook envK1 kernelSensitiveNb 5 9).outcome
        = ExecOutcome.ok ⟨"5", "", "5\n"⟩
    ∧ (executeNotebook envK2 kernelSensitiveNb 5 9).outcome
        = ExecOutcome.ok ⟨"6", "", "6\n"⟩
    ∧ (executeNotebook envK1 kernelSensitiveNb 5 9).outcome
        ≠ (executeNotebook envK2 kernelSensitiveNb 5 9).outcome := by
  decide

/--
C4 (amended): `_setup_deterministic_seeds` seeds every generator available
in the runner process (general PRNG, and numpy/torch when importable)
before any user code runs, but the cells execute in a separate kernel
subprocess that this seeding never reaches.  Determinism therefore holds
exactly for artifacts whose behavior does not consult the kernel's
unseeded generator state: for two executions with the same notebook bytes
and seed, on hosts agreeing in configuration, whose notebook behaves
identically on the two kernel states (in particular any notebook that
consults no kernel generator, or reseeds the kernel's generators itself),
the results — `metrics` included — are byte-identical, regardless of
either process's initial randomness.
-/
theorem c4_determinism_modulo_kernel (e1 e2 : Env) (nb : Notebook) (tm s : Nat)
    (h1 : e1.cudaVisibleDevices = e2.cudaVisibleDevices)
    (h2 : e1.torchCudaAvailable = e2.torchCudaAvailable)
    (h3 : e1.pythonVersion = e2.pythonVersion)
    (h4 : e1.prng.numpy.isSome = e2.prng.numpy.isSome)
    (h5 : e1.prng.torch.isSome = e2.prng.torch.isSome)
    (hnb : nb e1.kernel = nb e2.kernel) :
    executeNotebook e1 nb tm s = executeNotebook e2 nb tm s := by
  have hcpu : cpuOnlyEvents e1 = cpuOnlyEvents e2 := by
    unfold cpuOnlyEvents
    rw [h2, h3, h5]
  have hse : seedEvents e1.prng s = seedEvents e2.prng s := by
    unfold seedEvents
    rw [h4, h5]
  have hgpu : gpuCheck e1 = gpuCheck e2 := by
    unfold gpuCheck gpuMsg
    rw [h1]
  unfold executeNotebook executeSync
  rw [hgpu, hcpu, hse, hnb]

/-- Witness for C4 (amended): same host configuration, different runner
and kernel randomness on the two sides, and a notebook (`okNb`) that
consults no kernel generator: the results coincide. -/
theorem c4_determinism_modulo_kernel_witness :
    envA.cudaVisibleDevices = envB.cudaVisibleDevices
    ∧ envA.torchCudaAvailable = envB.torchCudaAvailable
    ∧ envA.pythonVersion = envB.pythonVersion
    ∧ envA.prng.numpy.isSome = envB.prng.numpy.isSome
    ∧ envA.prng.torch.isSome = envB.prng.torch.isSome
    ∧ okNb envA.kernel = okNb envB.kernel
    ∧ envA.prng ≠ envB.prng
    ∧ envA.kernel ≠ envB.kernel
    ∧ executeNotebook envA okNb 5 9 = executeNotebook envB okNb 5 9 :=
  ⟨rfl, rfl, rfl, rfl, rfl, rfl, by decide, by decide,
   c4_determinism_modulo_kernel envA envB okNb 5 9 rfl rfl rfl rfl rfl rfl⟩

/--
C5: an explicit GPU request (`CUDA_VISIBLE_DEVICES` set to anything other
than empty or `-1`) makes `_enforce_cpu_only` raise `GPURequestedError`
before any cell executes and before anything is emitted (zero units
executed, empty event list), and the orchestrator records the run `failed`
with `stage_update(run_error)` followed by one `error` event carrying the
stable code `E_GPU_REQUESTED` — never a silent CPU fallback.
-/
theorem c5_gpu_request_fails_fast (rid : String) (doc : PlanDoc) (env : Env)
    (nb : Notebook)
    (h1 : env.cudaVisibleDevices ≠ "") (h2 : env.cudaVisibleDevices ≠ "-1") :
    executeNotebook env nb (timeoutMinutesOf doc) (seedOf doc)
      = ⟨ExecOutcome.gpuError (gpuMsg env), [], 0⟩
    ∧ statusUpdates (runPlanPipeline rid doc env nb) = ["running", "failed"]
    ∧ finalStatus "pending" (runPlanPipeline rid doc env nb) = "failed"
    ∧ publishedEvents (runPlanPipeline rid doc env nb)
        = [Event.stage_update "run_start" (some rid), Event.progress 0 none,
           Event.stage_update "run_error" (some rid),
           Event.error (gpuMsg env) (some "E_GPU_REQUESTED")] := by
  have hg : gpuCheck env = some (gpuMsg env) := by
    unfold gpuCheck
    rw [if_pos ⟨h1, h2⟩]
  have hx : executeNotebook env nb (timeoutMinutesOf doc) (seedOf doc)
      = ⟨ExecOutcome.gpuError (gpuMsg env), [], 0⟩ := by
    unfold executeNotebook executeSync
    rw [hg]
  refine ⟨hx, ?_, ?_, ?_⟩ <;>
    · unfold runPlanPipeline
      rw [hx]
      rfl

/-- Witness for C5 at `CUDA_VISIBLE_DEVICES=0`. -/
theorem c5_gpu_request_fails_fast_witness :
    gpuEnv.cudaVisibleDevices ≠ "" ∧ gpuEnv.cudaVisibleDevices ≠ "-1"
    ∧ executeNotebook gpuEnv okNb (timeoutMinutesOf budgetDoc) (seedOf budgetDoc)
        = ⟨ExecOutcome.gpuError (gpuMsg gpuEnv), [], 0⟩
    ∧ finalStatus "pending" (runPlanPipeline "r" budgetDoc gpuEnv okNb) = "failed" :=
  ⟨by decide, by decide,
   (c5_gpu_request_fails_fast "r" budgetDoc gpuEnv okNb (by decide) (by decide)).1,
   (c5_gpu_request_fails_fast "r" budgetDoc gpuEnv okNb (by decide) (by decide)).2.2.1⟩

theorem runPlan_failure (rid : String) (doc : PlanDoc) (o : SandboxOutcome)
    (msg code : String) (em : List Event)
    (h : failureInfo o = some (msg, code, em)) :
    runPlan rid (some doc) o
      = [Action.registerBus, Action.dbUpdate "running"]
          ++ emitA (Event.stage_update "run_start" (some rid))
          ++ emitA (Event.progress 0 none)
          ++ (em.map emitA).flatten
          ++ failTail rid msg code em
          ++ [Action.closeBus] := by
  cases o with
  | ok r e => simp [failureInfo] at h
  | timeout e =>
    simp only [failureInfo, Option.some.injEq, Prod.mk.injEq] at h
    obtain ⟨hm, hc, he⟩ := h
    subst hm; subst hc; subst he
    simp [runPlan]
  | gpuRequested m e =>
    simp only [failureInfo, Option.some.injEq, Prod.mk.injEq] at h
    obtain ⟨hm, hc, he⟩ := h
    subst hm; subst hc; subst he
    simp [runPlan]
  | execError m e =>
    simp only [failureInfo, Option.some.injEq, Prod.mk.injEq] at h
    obtain ⟨hm, hc, he⟩ := h
    subst hm; subst hc; subst he
    simp [runPlan]
  | unexpected e =>
    simp only [failureInfo, Option.some.injEq, Prod.mk.injEq] at h
    obtain ⟨hm, hc, he⟩ := h
    subst hm; subst hc; subst he
    simp [runPlan]

theorem statusUpdates_append (a b : List Action) :
    statusUpdates (a ++ b) = statusUpdates a ++ statusUpdates b :=
  List.filterMap_append a b _

theorem publishedEvents_append (a b : List Action) :
    publishedEvents (a ++ b) = publishedEvents a ++ publishedEvents b :=
  List.filterMap_append a b _

theorem storedTexts_append (a b : List Action) (key : String) :
    storedTexts (a ++ b) key = storedTexts a key ++ storedTexts b key :=
  List.filterMap_append a b _

theorem statusUpdates_emits (em : List Event) :
    statusUpdates ((em.map emitA).flatten) = [] := by
  induction em with
  | nil => rfl
  | cons e rest ih =>
    rw [List.map_cons, List.flatten_cons, statusUpdates_append, ih]
    rfl

theorem publishedEvents_emits (em : List Event) :
    publishedEvents ((em.map emitA).flatten) = em := by
  induction em with
  | nil => rfl
  | cons e rest ih =>
    rw [List.map_cons, List.flatten_cons, publishedEvents_append, ih]
    rfl

theorem storedTexts_emits (em : List Event) (key : String) :
    storedTexts ((em.map emitA).flatten) key = [] := by
  induction em with
  | nil => rfl
  | cons e rest ih =>
    rw [List.map_cons, List.flatten_cons, storedTexts_append, ih]
    rfl

theorem closeBus_not_mem_emits (em : List Event) :
    Action.closeBus ∉ (em.map emitA).flatten := by
  induction em with
  | nil => simp
  | cons e rest ih => simp [emitA, ih]

theorem runPlan_failure_obs (rid : String) (doc : PlanDoc)
    (o : SandboxOutcome) (msg code : String) (em : List Event)
    (h : failureInfo o = some (msg, code, em)) :
    statusUpdates (runPlan rid (some doc) o) = ["running", "failed"]
    ∧ finalStatus "pending" (runPlan rid (some doc) o) = "failed"
    ∧ publishedEvents (runPlan rid (some doc) o)
        = [Event.stage_update "run_start" (some rid), Event.progress 0 none]
            ++ em
            ++ [Event.stage_update "run_error" (some rid),
                Event.error msg (some code)]
    ∧ storedTexts (runPlan rid (some doc) o) ("runs/" ++ rid ++ "/logs.txt")
        = [partialLogsText em] := by
  have hS : statusUpdates (runPlan rid (some doc) o) = ["running", "failed"] := by
    rw [runPlan_failure rid doc o msg code em h]
    simp only [statusUpdates_append, statusUpdates_emits]
    rfl
  refine ⟨hS, ?_, ?_, ?_⟩
  · unfold finalStatus
    rw [hS]
    rfl
  · rw [runPlan_failure rid doc o msg code em h]
    simp only [publishedEvents_append, publishedEvents_emits]
    show ([] : List Event)
        ++ [Event.stage_update "run_start" (some rid)]
        ++ [Event.progress 0 none] ++ em
        ++ [Event.stage_update "run_error" (some rid), Event.error msg (some code)]
        ++ [] = _
    simp
  · rw [runPlan_failure rid doc o msg code em h]
    simp only [storedTexts_append, storedTexts_emits]
    show ([] : List String) ++ [] ++ [] ++ []
        ++ storedTexts (failTail rid msg code em) ("runs/" ++ rid ++ "/logs.txt")
        ++ [] = _
    have hft : storedTexts (failTail rid msg code em)
        ("runs/" ++ rid ++ "/logs.txt") = [partialLogsText em] := by
      unfold failTail storedTexts emitA
      simp
    rw [hft]
    simp

/--
C1 (counterexample): a run whose plan document fails to validate is a
failing run, yet its published trace is a single `error` event with no
preceding `stage_update(run_error)` — the claimed
"`stage_update(run_error)` followed by exactly one `error`" shape does not
hold for this failure cause (the channel close is still last).
-/
theorem c1_plan_invalid_counterexample :
    publishedEvents (runPlan "r" none (SandboxOutcome.unexpected []))
      = [Event.error "Plan document invalid" (some "E_RUN_FAILED")]
    ∧ (publishedEvents (runPlan "r" none (SandboxOutcome.unexpected []))).filter
        isRunErrorStage = []
    ∧ (runPlan "r" none (SandboxOutcome.unexpected [])).getLast?
        = some Action.closeBus := by
  decide

/--
C1 (amended): a run that fails during execution (timeout, GPU request,
execution error, or unexpected exception) produces exactly the trace
`… stage_update(run_error), one error event with the stable code, the
failed status write, the partial-logs write, close` — so after the
orchestrator's `run_error` stage update exactly one error event is
published and the Event Bus channel close is the last action, after every
publication and persistence write.  A run whose plan fails to validate
instead publishes exactly one `error` event (code `E_RUN_FAILED`) with no
`run_error` stage update, again closing the channel last.  No failing run
ends silently.
-/
theorem c1_failing_run_error_protocol (rid : String) (doc : PlanDoc)
    (o : SandboxOutcome) (msg code : String) (em : List Event)
    (h : failureInfo o = some (msg, code, em)) :
    runPlan rid (some doc) o
      = [Action.registerBus, Action.dbUpdate "running"]
          ++ emitA (Event.stage_update "run_start" (some rid))
          ++ emitA (Event.progress 0 none)
          ++ (em.map emitA).flatten
          ++ (emitA (Event.stage_update "run_error" (some rid))
              ++ emitA (Event.error msg (some code))
              ++ [Action.dbUpdate "failed",
                  Action.storeText ("runs/" ++ rid ++ "/logs.txt")
                    (partialLogsText em)])
          ++ [Action.closeBus]
    ∧ (runPlan rid (some doc) o).getLast? = some Action.closeBus
    ∧ Action.closeBus ∉ (runPlan rid (some doc) o).dropLast
    ∧ runPlan rid none o
        = [Action.registerBus,
           Action.publishEv (Event.error "Plan document invalid" (some "E_RUN_FAILED")),
           Action.dbInsertEvent (Event.error "Plan document invalid" (some "E_RUN_FAILED")),
           Action.closeBus]
    ∧ (runPlan rid none o).getLast? = some Action.closeBus := by
  have htrace := runPlan_failure rid doc o msg code em h
  have htail : runPlan rid (some doc) o
      = ([Action.registerBus, Action.dbUpdate "running"]
          ++ emitA (Event.stage_update "run_start" (some rid))
          ++ emitA (Event.progress 0 none)
          ++ (em.map emitA).flatten
          ++ (emitA (Event.stage_update "run_error" (some rid))
              ++ emitA (Event.error msg (some code))
              ++ [Action.dbUpdate "failed",
                  Action.storeText ("runs/" ++ rid ++ "/logs.txt")
                    (partialLogsText em)]))
          ++ [Action.closeBus] := by
    rw [htrace]
    simp [failTail, emitA]
  refine ⟨?_, ?_, ?_, ?_, ?_⟩
  · rw [htail]
  · rw [htail, List.getLast?_concat]
  · rw [htail, List.dropLast_concat]
    simp [emitA, failTail, closeBus_not_mem_emits em]
  · cases o <;> rfl
  · cases o <;> rfl

/-- Witness for C1 (amended) at a concrete timeout outcome carrying one
sandbox log line. -/
theorem c1_failing_run_error_protocol_witness :
    failureInfo (SandboxOutcome.timeout [Event.log_line "partial work"])
      = some ("Run exceeded allotted time", "E_RUN_TIMEOUT",
              [Event.log_line "partial work"])
    ∧ (runPlan "r" (some budgetDoc)
        (SandboxOutcome.timeout [Event.log_line "partial work"])).getLast?
      = some Action.closeBus
    ∧ runPlan "r" none (SandboxOutcome.timeout [Event.log_line "partial work"])
      = [Action.registerBus,
         Action.publishEv (Event.error "Plan document invalid" (some "E_RUN_FAILED")),
         Action.dbInsertEvent (Event.error "Plan document invalid" (some "E_RUN_FAILED")),
         Action.closeBus] :=
  ⟨rfl,
   (c1_failing_run_error_protocol "r" budgetDoc
      (SandboxOutcome.timeout [Event.log_line "partial work"])
      "Run exceeded allotted time" "E_RUN_TIMEOUT"
      [Event.log_line "partial work"] rfl).2.1,
   (c1_failing_run_error_protocol "r" budgetDoc
      (SandboxOutcome.timeout [Event.log_line "partial work"])
      "Run exceeded allotted time" "E_RUN_TIMEOUT"
      [Event.log_line "partial work"] rfl).2.2.2.1⟩

/--
C2 (counterexample): there is no orchestrator-side deadline wrapper around
the sandbox call — the budget is handed to the notebook client as a
per-cell timeout.  With a one-minute budget (deadline 60 s) and a notebook
of two 50-second cells, the total run time (100 s) exceeds the deadline
before the sandbox returns, yet no cell exceeds the per-cell timeout: the
run is recorded `succeeded` and no `E_RUN_TIMEOUT` error is ever emitted,
contradicting the claim.
-/
theorem c2_total_budget_counterexample :
    max 1 (min (timeoutMinutesOf budgetDoc) 25) * 60 = 60
    ∧ ((slowNb benignEnv.kernel).cells.map
        Cell.duration).sum = 100
    ∧ statusUpdates (runPlanPipeline "r" budgetDoc benignEnv slowNb)
        = ["running", "succeeded"]
    ∧ finalStatus "pending" (runPlanPipeline "r" budgetDoc benignEnv slowNb)
        = "succeeded"
    ∧ (publishedEvents (runPlanPipeline "r" budgetDoc benignEnv slowNb)).filter
        isTimeoutError = [] := by
  decide

/--
C2 (amended): the deadline — the plan's declared budget clamped to the
25-minute system ceiling, in seconds — is enforced per unit by the
notebook client, not by an orchestrator wrapper.  When a single unit
exceeds it (and the units before it completed normally), the propagated
timeout error makes the orchestrator record the run `failed`, emit
`stage_update(run_error)` followed by exactly one `error` event with the
stable code `E_RUN_TIMEOUT`, and persist the log lines captured before the
timeout as the partial logs artifact; a run whose total duration exceeds
the budget while every unit stays under it is not treated as a timeout.
-/
theorem c2_per_unit_timeout (rid : String) (doc : PlanDoc) (env : Env)
    (nb : Notebook) (bf : List Cell) (c : Cell) (rest : List Cell)
    (hg : gpuCheck env = none)
    (hcells : (nb env.kernel).cells = bf ++ c :: rest)
    (hbf : ∀ x ∈ bf, x.raises = none
      ∧ x.duration ≤ max 1 (min (timeoutMinutesOf doc) 25) * 60)
    (hc : max 1 (min (timeoutMinutesOf doc) 25) * 60 < c.duration) :
    (executeNotebook env nb (timeoutMinutesOf doc) (seedOf doc)).outcome
        = ExecOutcome.cellTimeout
    ∧ statusUpdates (runPlanPipeline rid doc env nb) = ["running", "failed"]
    ∧ finalStatus "pending" (runPlanPipeline rid doc env nb) = "failed"
    ∧ publishedEvents (runPlanPipeline rid doc env nb)
        = [Event.stage_update "run_start" (some rid), Event.progress 0 none]
            ++ (executeNotebook env nb (timeoutMinutesOf doc) (seedOf doc)).events
            ++ [Event.stage_update "run_error" (some rid),
                Event.error "Run exceeded allotted time" (some "E_RUN_TIMEOUT")]
    ∧ storedTexts (runPlanPipeline rid doc env nb) ("runs/" ++ rid ++ "/logs.txt")
        = [partialLogsText
            (executeNotebook env nb (timeoutMinutesOf doc) (seedOf doc)).events] := by
  have hx : executeNotebook env nb (timeoutMinutesOf doc) (seedOf doc)
      = ⟨ExecOutcome.cellTimeout,
         cpuOnlyEvents env ++ seedEvents env.prng (seedOf doc)
           ++ (normalCellsEvents (max (bf ++ c :: rest).length 1) bf 1
                ++ [Event.progress
                      (bf.length * 100 / max (bf ++ c :: rest).length 1) none]),
         bf.length + 1⟩ := by
    unfold executeNotebook executeSync
    rw [hg]
    simp only
    rw [hcells, runCells_stops_at_timeout
      (max 1 (min (timeoutMinutesOf doc) 25) * 60)
      (max (bf ++ c :: rest).length 1) bf c rest 1 hbf hc]
    simp
  have hinfo : failureInfo (toSandboxOutcome
      (executeNotebook env nb (timeoutMinutesOf doc) (seedOf doc)))
      = some ("Run exceeded allotted time", "E_RUN_TIMEOUT",
              (executeNotebook env nb (timeoutMinutesOf doc) (seedOf doc)).events) := by
    rw [hx]
    rfl
  have hobs := runPlan_failure_obs rid doc
    (toSandboxOutcome (executeNotebook env nb (timeoutMinutesOf doc) (seedOf doc)))
    "Run exceeded allotted time" "E_RUN_TIMEOUT"
    (executeNotebook env nb (timeoutMinutesOf doc) (seedOf doc)).events hinfo
  exact ⟨by rw [hx], hobs.1, hobs.2.1, hobs.2.2.1, hobs.2.2.2⟩

/-- Witness for C2 (amended): one 61-second cell against a one-minute
budget times out; the captured environment log line is persisted as the
partial logs artifact. -/
theorem c2_per_unit_timeout_witness :
    (executeNotebook benignEnv hangingNb (timeoutMinutesOf budgetDoc)
        (seedOf budgetDoc)).outcome = ExecOutcome.cellTimeout
    ∧ finalStatus "pending" (runPlanPipeline "r" budgetDoc benignEnv hangingNb)
        = "failed"
    ∧ storedTexts (runPlanPipeline "r" budgetDoc benignEnv hangingNb)
        ("runs/" ++ "r" ++ "/logs.txt")
      = [partialLogsText
          (executeNotebook benignEnv hangingNb (timeoutMinutesOf budgetDoc)
            (seedOf budgetDoc)).events] :=
  ⟨(c2_per_unit_timeout "r" budgetDoc benignEnv hangingNb [] ⟨61, none, [], []⟩ []
      rfl rfl (by decide) (by decide)).1,
   (c2_per_unit_timeout "r" budgetDoc benignEnv hangingNb [] ⟨61, none, [], []⟩ []
      rfl rfl (by decide) (by decide)).2.2.1,
   (c2_per_unit_timeout "r" budgetDoc benignEnv hangingNb [] ⟨61, none, [], []⟩ []
      rfl rfl (by decide) (by decide)).2.2.2.2⟩

/-- Witness for C6 (amended): cap 20, one under-cap content (stored
unchanged) and one 31-byte over-cap content (stored within the cap,
marker-terminated, one warning emitted). -/
theorem c6_truncation_amended_witness :
    utf8Len TRUNCATION_MARKER ≤ 20
    ∧ truncateIfNeeded "short" 20 "logs.txt" = ("short", [])
    ∧ 20 < utf8Len (String.mk (List.replicate 31 'a'))
    ∧ utf8Len (truncateIfNeeded (String.mk (List.replicate 31 'a')) 20 "logs.txt").1 ≤ 20
    ∧ (∃ p, (truncateIfNeeded (String.mk (List.replicate 31 'a')) 20 "logs.txt").1.data
        = p ++ TRUNCATION_MARKER.data)
    ∧ (truncateIfNeeded (String.mk (List.replicate 31 'a')) 20 "logs.txt").2
        = [Event.log_line "Warning: logs.txt exceeded 20 bytes and was truncated"] := by
  refine ⟨by decide, ?_, by decide, ?_, ?_, ?_⟩
  · exact (c6_truncation_amended "short" 20 "logs.txt" (by decide)).1 (by decide)
  · exact ((c6_truncation_amended (String.mk (List.replicate 31 'a')) 20 "logs.txt"
      (by decide)).2.1 (by decide)).1
  · exact ((c6_truncation_amended (String.mk (List.replicate 31 'a')) 20 "logs.txt"
      (by decide)).2.1 (by decide)).2.1
  · have h := ((c6_truncation_amended (String.mk (List.replicate 31 'a')) 20 "logs.txt"
      (by decide)).2.1 (by decide)).2.2
    rw [h]
    decide

end P2N
